import Mathlib

/-!
Shallow embedding of the HTTP traffic-dump logging subsystem of
`pkg/util/logging.go` (dynatrace-monitoring-as-code).

The Go file holds two process-wide file handles (`requestLogFile`,
`responseLogFile`), set up once from environment variables, and the
operations `LogRequest`/`LogResponse` that serialize an HTTP message and
append it to the corresponding file.

External collaborators (the `afero` file system, `httputil` dumping,
`os.LookupEnv`, `filepath.Abs`) are modelled as explicit parameters whose
outcomes are supplied by an `Externals` / `SetupExt` record; the file
handles are modelled as `Option String` (absent handle / current file
content).  Go's runtime bounds check on slice indexing is modelled by
`goIndex`, which returns `none` exactly when Go would panic.
-/

namespace MonacoLogging

/-- I/O errors are opaque to this subsystem; we model them as strings. -/
abbrev IOErr := String

/-- HTTP header map, as Go's `http.Header`: keys to lists of values.
Lookup `header["Content-Type"]` with the comma-ok form becomes
`List.lookup`. -/
abbrev Header := List (String × List String)

/-- An outbound HTTP request: only the header matters to this subsystem
(the rest of the message is consumed by the external dump function). -/
structure Request where
  header : Header

/-- An inbound HTTP response, likewise reduced to its header. -/
structure Response where
  header : Header

/-- Go slice indexing `l[i]` with its runtime bounds check: `some`
of the element when `0 ≤ i < len(l)`, `none` where Go panics. -/
def goIndex {α : Type} (l : List α) (i : Int) : Option α :=
  if h : 0 ≤ i ∧ i < (l.length : Int) then
    some (l.get ⟨i.toNat, by omega⟩)
  else
    none

/-- Go's `strings.HasPrefix(s, p)`, modelled on the character lists of
the two strings (for valid UTF-8 strings, byte-level and character-level
prefix coincide): ` List.isPrefixOf p.data s.data`. -/
def goHasPre (s p : String) : Bool :=
  List.isPrefixOf p.data s.data

/-- `shouldDumpBody` from logging.go lines 207-221, translated literally:
the Go code calls `strings.HasPrefix("text/", contentType)` (and likewise
for the other two constants), i.e. it asks whether the *constant* starts
with `contentType`. -/
def shouldDumpBody (contentType : String) : Bool :=
  if goHasPre "text/" contentType then
    true
  else if goHasPre "application/json" contentType then
    true
  else if goHasPre "application/xml" contentType then
    true
  else
    false

/-- The intended body-dump policy as the spec words it: true exactly when
the content type starts with one of the three fixed strings.  Used to
exhibit the divergence of the code from the spec. -/
def shouldDumpBodySpec (contentType : String) : Bool :=
  goHasPre contentType "text/"
    || goHasPre contentType "application/json"
    || goHasPre contentType "application/xml"

/-- Lines 139-145 / 172-178 of logging.go (the identical content-type
inspection in `LogRequest` and `LogResponse`): look up `"Content-Type"`;
when present take the element at index `len-1` (Go panics when the value
list is empty, modelled by `none`); the resulting flag is
`shouldDumpBody` of that element, or `false` when the header is absent. -/
def dumpBodyFor (header : Header) : Option Bool :=
  match header.lookup "Content-Type" with
  | some contentTypes =>
    match goIndex contentTypes ((contentTypes.length : Int) - 1) with
    | some contentType => some (shouldDumpBody contentType)
    | none => none
  | none => some false

/-- The separator literal from the Go format strings (lines 157 and 197). -/
def separator : String := "========================="

/-- The process-wide mutable state: the two channel file handles.
`none` is Go's `nil` handle (channel inactive); `some c` is an open
handle whose file currently holds `c`. -/
structure LogState where
  requestLogFile : Option String
  responseLogFile : Option String
deriving DecidableEq, Repr

/-- `IsRequestLoggingActive` (line 126): the request handle is non-nil. -/
def IsRequestLoggingActive (st : LogState) : Bool :=
  st.requestLogFile.isSome

/-- `IsResponseLoggingActive` (line 130): the response handle is non-nil. -/
def IsResponseLoggingActive (st : LogState) : Bool :=
  st.responseLogFile.isSome

/-- How a record operation ends: a Go panic (out-of-bounds index), an
error return, or a nil return. -/
inductive RecResult where
  | panic : RecResult
  | err : IOErr → RecResult
  | ok : RecResult
deriving DecidableEq, Repr

/-- Observable external steps a record operation performs, in order:
the serialization call (with the body flag it was given), each
`WriteString` call (with the string it was given), and the `Sync` call. -/
inductive Event where
  | dumped : Bool → Event
  | wrote : String → Event
  | synced : Event
deriving DecidableEq, Repr

/-- Result of one record operation: the returned value, the state after,
and the trace of external steps that were performed. -/
structure Outcome where
  result : RecResult
  state : LogState
  events : List Event
deriving DecidableEq, Repr

/-- Outcomes of the external calls a record operation makes:
`dump b` is `httputil.DumpRequestOut(request, b)` (resp. `DumpResponse`);
`write n` is the success/failure of the n-th `WriteString` call of this
operation; `sync` that of the final `Sync`.  A failed write leaves the
file unchanged. -/
structure Externals where
  dump : Bool → Except IOErr String
  write : Nat → Except IOErr Unit
  sync : Except IOErr Unit

/-- The strings written by an operation, in order. -/
def writesOf (o : Outcome) : List String :=
  o.events.filterMap fun e =>
    match e with
    | .wrote s => some s
    | _ => none

/-- `LogRequest` from logging.go lines 134-165. -/
def LogRequest (ext : Externals) (st : LogState) (id : String)
    (request : Request) : Outcome :=
  match st.requestLogFile with
  | none => ⟨.ok, st, []⟩
  | some content =>
    match dumpBodyFor request.header with
    | none => ⟨.panic, st, []⟩
    | some dumpBody =>
      match ext.dump dumpBody with
      | .error e => ⟨.err e, st, [.dumped dumpBody]⟩
      | .ok stringDump =>
        let text := "Request-ID: " ++ id ++ "\n" ++ stringDump ++ "\n"
          ++ separator ++ "\n"
        match ext.write 0 with
        | .error e => ⟨.err e, st, [.dumped dumpBody, .wrote text]⟩
        | .ok _ =>
          let st' : LogState :=
            { st with requestLogFile := some (content ++ text) }
          match ext.sync with
          | .error e =>
            ⟨.err e, st', [.dumped dumpBody, .wrote text, .synced]⟩
          | .ok _ =>
            ⟨.ok, st', [.dumped dumpBody, .wrote text, .synced]⟩

/-- `LogResponse` from logging.go lines 167-205.  The `Request-ID:` line
is its own `WriteString` call, made only when `id` is non-empty; the dump
plus separator is a second call. -/
def LogResponse (ext : Externals) (st : LogState) (id : String)
    (response : Response) : Outcome :=
  match st.responseLogFile with
  | none => ⟨.ok, st, []⟩
  | some content =>
    match dumpBodyFor response.header with
    | none => ⟨.panic, st, []⟩
    | some dumpBody =>
      match ext.dump dumpBody with
      | .error e => ⟨.err e, st, [.dumped dumpBody]⟩
      | .ok stringDump =>
        let idText := "Request-ID: " ++ id ++ "\n"
        let finish := fun (n : Nat) (content' : String) (evs : List Event) =>
          let text := stringDump ++ "\n" ++ separator ++ "\n"
          match ext.write n with
          | .error e =>
            ⟨.err e, { st with responseLogFile := some content' },
              evs ++ [.wrote text]⟩
          | .ok _ =>
            let st' : LogState :=
              { st with responseLogFile := some (content' ++ text) }
            match ext.sync with
            | .error e => ⟨.err e, st', evs ++ [.wrote text, .synced]⟩
            | .ok _ => (⟨.ok, st', evs ++ [.wrote text, .synced]⟩ : Outcome)
        if id ≠ "" then
          match ext.write 0 with
          | .error e => ⟨.err e, st, [.dumped dumpBody, .wrote idText]⟩
          | .ok _ =>
            finish 1 (content ++ idText) [.dumped dumpBody, .wrote idText]
        else
          finish 0 content [.dumped dumpBody]

/-- The environment: the two gating variables `MONACO_REQUEST_LOG` and
`MONACO_RESPONSE_LOG`, as `os.LookupEnv` sees them. -/
structure Env where
  requestLogVar : Option String
  responseLogVar : Option String

/-- Outcomes of the external calls made during setup: opening the main
`.logs/<timestamp>.log` file, `filepath.Abs`, and
`prepareLogFile` (open with create+truncate). -/
structure SetupExt where
  mainLogOpen : Except IOErr Unit
  absPath : String → Except IOErr String
  openLogFile : String → Except IOErr Unit

/-- Result of a setup step: the returned value, the state after, and the
absolute paths of channel log files successfully opened. -/
structure SetupOutcome where
  result : Except IOErr Unit
  state : LogState
  opened : List String

/-- `setupRequestLog` from logging.go lines 76-97. -/
def setupRequestLog (ext : SetupExt) (env : Env) (st : LogState) :
    SetupOutcome :=
  match env.requestLogVar with
  | some logFilePath =>
    match ext.absPath logFilePath with
    | .error e => ⟨.error e, st, []⟩
    | .ok p =>
      match ext.openLogFile p with
      | .error e => ⟨.error e, st, []⟩
      | .ok _ => ⟨.ok (), { st with requestLogFile := some "" }, [p]⟩
  | none => ⟨.ok (), st, []⟩

/-- `setupResponseLog` from logging.go lines 99-120. -/
def setupResponseLog (ext : SetupExt) (env : Env) (st : LogState) :
    SetupOutcome :=
  match env.responseLogVar with
  | some logFilePath =>
    match ext.absPath logFilePath with
    | .error e => ⟨.error e, st, []⟩
    | .ok p =>
      match ext.openLogFile p with
      | .error e => ⟨.error e, st, []⟩
      | .ok _ => ⟨.ok (), { st with responseLogFile := some "" }, [p]⟩
  | none => ⟨.ok (), st, []⟩

/-- `SetupLogging` from logging.go lines 40-74, reduced to its
error-relevant skeleton: the main log-file open (line 55-64), then
`setupRequestLog`, then `setupResponseLog`, each early-returning its
error. -/
def SetupLogging (ext : SetupExt) (env : Env) (st : LogState) :
    SetupOutcome :=
  match ext.mainLogOpen with
  | .error e => ⟨.error e, st, []⟩
  | .ok _ =>
    let r := setupRequestLog ext env st
    match r.result with
    | .error e => ⟨.error e, r.state, r.opened⟩
    | .ok _ =>
      let r' := setupResponseLog ext env r.state
      match r'.result with
      | .error e => ⟨.error e, r'.state, r.opened ++ r'.opened⟩
      | .ok _ => ⟨.ok (), r'.state, r.opened ++ r'.opened⟩

/-- The zero-value initial state: both handles nil. -/
def initState : LogState := ⟨none, none⟩

/-- Externals in which every call succeeds, for concrete evaluations. -/
def extAllOk : Externals :=
  ⟨fun _ => .ok "DUMP", fun _ => .ok (), .ok ()⟩

end MonacoLogging

namespace MonacoLogging

/-- C1: the claim says `shouldDumpBody` returns true exactly for content
types starting with `text/`, `application/json` or `application/xml`, and
false otherwise, in particular for the empty string.  The code swaps the
arguments of `strings.HasPrefix`, so `"text/plain"` yields false and `""`
yields true — the opposite of the claim on both inputs — while the
spec-worded policy gives the claimed answers there. -/
theorem shouldDumpBody_swapped_prefix_args :
    shouldDumpBody "text/plain" = false ∧ shouldDumpBody "" = true ∧
      shouldDumpBodySpec "text/plain" = true ∧ shouldDumpBodySpec "" = false := by
  refine ⟨by decide, by decide, by decide, by decide⟩

/-- Go's `l[len(l)-1]` returns the last element for non-empty `l`. -/
theorem goIndex_last {α : Type} (l : List α) (h : l ≠ []) :
    goIndex l ((l.length : Int) - 1) = some (l.getLast h) := by
  have hlen : 0 < l.length := List.length_pos.mpr h
  have hc : 0 ≤ (l.length : Int) - 1 ∧ (l.length : Int) - 1 < (l.length : Int) := by
    omega
  have ht : ((l.length : Int) - 1).toNat = l.length - 1 := by omega
  simp only [goIndex, dif_pos hc, List.get_eq_getElem, ht]
  rw [List.getLast_eq_getElem]

/-- On a non-empty `Content-Type` value list, the body flag is the policy
applied to the last value. -/
theorem dumpBodyFor_last (hd : Header) (cts : List String)
    (hlk : hd.lookup "Content-Type" = some cts) (hne : cts ≠ []) :
    dumpBodyFor hd = some (shouldDumpBody (cts.getLast hne)) := by
  simp only [dumpBodyFor, hlk, goIndex_last cts hne]

/-- With no `Content-Type` key, the body flag is false. -/
theorem dumpBodyFor_absent (hd : Header)
    (hlk : hd.lookup "Content-Type" = none) :
    dumpBodyFor hd = some false := by
  simp only [dumpBodyFor, hlk]

/-- On an active request channel, the first external step of `LogRequest`
is the serialization call with the computed body flag. -/
theorem logRequest_first_event (ext : Externals) (c : String)
    (rest : Option String) (id : String) (req : Request) (b : Bool)
    (hb : dumpBodyFor req.header = some b) :
    (LogRequest ext ⟨some c, rest⟩ id req).events.head?
      = some (.dumped b) := by
  simp only [LogRequest, hb]
  cases ext.dump b with
  | error e => rfl
  | ok d =>
    cases ext.write 0 with
    | error e => rfl
    | ok u =>
      cases ext.sync with
      | error e => rfl
      | ok u => rfl

/-- On an active response channel, the first external step of
`LogResponse` is the serialization call with the computed body flag. -/
theorem logResponse_first_event (ext : Externals) (c : String)
    (rest : Option String) (id : String) (resp : Response) (b : Bool)
    (hb : dumpBodyFor resp.header = some b) :
    (LogResponse ext ⟨rest, some c⟩ id resp).events.head?
      = some (.dumped b) := by
  simp only [LogResponse, hb]
  cases ext.dump b with
  | error e => rfl
  | ok d =>
    by_cases hid : id = "" <;>
      simp only [hid, if_pos, if_neg, ite_true, ite_false, ne_eq,
        not_true_eq_false, not_false_eq_true]
    · cases ext.write 0 with
      | error e => rfl
      | ok u =>
        cases ext.sync with
        | error e => rfl
        | ok u => rfl
    · cases ext.write 0 with
      | error e => rfl
      | ok u =>
        cases ext.write 1 with
        | error e => rfl
        | ok u =>
          cases ext.sync with
          | error e => rfl
          | ok u => rfl

/-- C3: on an active channel, when the `Content-Type` header is present
with a non-empty value list, both record operations evaluate the
body-dump policy on the *last* element of that list; when the header is
absent, the body flag is false (the body is not dumped). -/
theorem record_policy_on_last_content_type (ext : Externals)
    (reqC respC id : String) (hd : Header) (cts : List String)
    (hlk : hd.lookup "Content-Type" = some cts) (hne : cts ≠ []) :
    (LogRequest ext ⟨some reqC, some respC⟩ id ⟨hd⟩).events.head?
        = some (.dumped (shouldDumpBody (cts.getLast hne))) ∧
    (LogResponse ext ⟨some reqC, some respC⟩ id ⟨hd⟩).events.head?
        = some (.dumped (shouldDumpBody (cts.getLast hne))) ∧
    ∀ hd' : Header, hd'.lookup "Content-Type" = none →
      (LogRequest ext ⟨some reqC, some respC⟩ id ⟨hd'⟩).events.head?
          = some (.dumped false) ∧
      (LogResponse ext ⟨some reqC, some respC⟩ id ⟨hd'⟩).events.head?
          = some (.dumped false) := by
  refine ⟨?_, ?_, ?_⟩
  · exact logRequest_first_event ext reqC (some respC) id ⟨hd⟩ _
      (dumpBodyFor_last hd cts hlk hne)
  · exact logResponse_first_event ext respC (some reqC) id ⟨hd⟩ _
      (dumpBodyFor_last hd cts hlk hne)
  · intro hd' hlk'
    exact ⟨logRequest_first_event ext reqC (some respC) id ⟨hd'⟩ _
        (dumpBodyFor_absent hd' hlk'),
      logResponse_first_event ext respC (some reqC) id ⟨hd'⟩ _
        (dumpBodyFor_absent hd' hlk')⟩

/-- C3 witness: with the multi-valued list
`["application/json", "text/plain"]` the policy is evaluated on
`"text/plain"`. -/
theorem record_policy_on_last_content_type_witness :
    (LogRequest extAllOk ⟨some "", some ""⟩ "id"
        ⟨[("Content-Type", ["application/json", "text/plain"])]⟩).events.head?
      = some (.dumped (shouldDumpBody "text/plain")) :=
  (record_policy_on_last_content_type extAllOk "" "" "id"
      [("Content-Type", ["application/json", "text/plain"])]
      ["application/json", "text/plain"] (by decide) (by decide)).1

/-- C2: with the `Content-Type` key mapped to an empty value list, both
record operations index element `len-1 = -1` of the list, which is out of
bounds: `goIndex` returns `none` and the operations hit the panic branch,
so they are not total over all header maps. -/
theorem record_empty_content_type_list_panics :
    goIndex ([] : List String) ((0 : Int) - 1) = none ∧
      (LogRequest extAllOk ⟨some "", some ""⟩ "id"
        ⟨[("Content-Type", [])]⟩).result = .panic ∧
      (LogResponse extAllOk ⟨some "", some ""⟩ "id"
        ⟨[("Content-Type", [])]⟩).result = .panic := by
  refine ⟨rfl, rfl, rfl⟩

/-- The separator literal is exactly 25 `=` characters. -/
theorem separator_eq : separator = String.mk (List.replicate 25 ('=' : Char)) := by
  decide

/-- C4: the request record always begins with the `Request-ID:` line,
even for the empty id, while the response record carries a `Request-ID:`
write exactly when the id is non-empty. -/
theorem request_id_line_asymmetry (ext : Externals) (reqC respC id : String)
    (req : Request) (resp : Response) (breq bresp : Bool) (dreq dresp : String)
    (hbreq : dumpBodyFor req.header = some breq)
    (hbresp : dumpBodyFor resp.header = some bresp)
    (hdreq : ext.dump breq = .ok dreq)
    (hdresp : ext.dump bresp = .ok dresp)
    (hw : ∀ n, ext.write n = .ok ()) :
    writesOf (LogRequest ext ⟨some reqC, some respC⟩ id req)
        = ["Request-ID: " ++ id ++ "\n" ++ dreq ++ "\n" ++ separator ++ "\n"] ∧
    writesOf (LogResponse ext ⟨some reqC, some respC⟩ "" resp)
        = [dresp ++ "\n" ++ separator ++ "\n"] ∧
    (id ≠ "" →
      writesOf (LogResponse ext ⟨some reqC, some respC⟩ id resp)
        = ["Request-ID: " ++ id ++ "\n",
           dresp ++ "\n" ++ separator ++ "\n"]) := by
  refine ⟨?_, ?_, fun hid => ?_⟩
  · simp only [LogRequest, hbreq, hdreq, hw 0]
    cases ext.sync <;> simp [writesOf]
  · simp only [LogResponse, hbresp, hdresp, hw 0]
    simp only [ne_eq, not_true_eq_false, if_false, ite_false]
    cases ext.sync <;> simp [writesOf]
  · simp only [LogResponse, hbresp, hdresp, hw 0, hw 1]
    simp only [ne_eq, hid, not_false_eq_true, if_true, ite_true]
    cases ext.sync <;> simp [writesOf]

/-- C4 witness: concrete records with ids `""` and `"abc123"`. -/
theorem request_id_line_asymmetry_witness :
    writesOf (LogResponse extAllOk ⟨some "", some ""⟩ "" ⟨[]⟩)
        = ["DUMP" ++ "\n" ++ separator ++ "\n"] ∧
    writesOf (LogResponse extAllOk ⟨some "", some ""⟩ "abc123" ⟨[]⟩)
        = ["Request-ID: " ++ "abc123" ++ "\n",
           "DUMP" ++ "\n" ++ separator ++ "\n"] ∧
    writesOf (LogRequest extAllOk ⟨some "", some ""⟩ "" ⟨[]⟩)
        = ["Request-ID: " ++ "" ++ "\n" ++ "DUMP" ++ "\n" ++ separator ++ "\n"] :=
  ⟨(request_id_line_asymmetry extAllOk "" "" "abc123" ⟨[]⟩ ⟨[]⟩ false false
      "DUMP" "DUMP" rfl rfl rfl rfl (fun _ => rfl)).2.1,
   (request_id_line_asymmetry extAllOk "" "" "abc123" ⟨[]⟩ ⟨[]⟩ false false
      "DUMP" "DUMP" rfl rfl rfl rfl (fun _ => rfl)).2.2 (by decide),
   (request_id_line_asymmetry extAllOk "" "" "" ⟨[]⟩ ⟨[]⟩ false false
      "DUMP" "DUMP" rfl rfl rfl rfl (fun _ => rfl)).1⟩

/-- C5: on an active request channel, a successful record appends to the
request file exactly the `Request-ID:` line, then the wire dump, then a
line of exactly 25 `=` characters, each followed by a newline. -/
theorem request_record_layout (ext : Externals) (c : String)
    (rest : Option String) (id : String) (req : Request) (b : Bool)
    (d : String) (_hid : id ≠ "")
    (hb : dumpBodyFor req.header = some b)
    (hd : ext.dump b = .ok d)
    (hw : ext.write 0 = .ok ()) :
    (LogRequest ext ⟨some c, rest⟩ id req).state.requestLogFile
      = some (c ++ ("Request-ID: " ++ id ++ "\n" ++ d ++ "\n"
          ++ String.mk (List.replicate 25 ('=' : Char)) ++ "\n")) := by
  simp only [LogRequest, hb, hd, hw, separator_eq]
  cases ext.sync <;> rfl

/-- C5 witness: a concrete successful record with id `"abc123"`. -/
theorem request_record_layout_witness :
    (LogRequest extAllOk ⟨some "", some ""⟩ "abc123" ⟨[]⟩).state.requestLogFile
      = some ("" ++ ("Request-ID: " ++ "abc123" ++ "\n" ++ "DUMP" ++ "\n"
          ++ String.mk (List.replicate 25 ('=' : Char)) ++ "\n")) :=
  request_record_layout extAllOk "" (some "") "abc123" ⟨[]⟩ false "DUMP"
    (by decide) rfl rfl rfl

/-- C6: on an inactive channel the record operation returns success,
performs no external step and leaves the state unchanged. -/
theorem record_inactive_noop (ext : Externals) (st : LogState) (id : String)
    (req : Request) (resp : Response) :
    (st.requestLogFile = none → LogRequest ext st id req = ⟨.ok, st, []⟩) ∧
    (st.responseLogFile = none → LogResponse ext st id resp = ⟨.ok, st, []⟩) := by
  constructor
  · intro h
    simp only [LogRequest, h]
  · intro h
    simp only [LogResponse, h]

/-- C6 witness: both operations are no-ops on the all-inactive initial
state. -/
theorem record_inactive_noop_witness :
    LogRequest extAllOk initState "id" ⟨[]⟩ = ⟨.ok, initState, []⟩ ∧
    LogResponse extAllOk initState "id" ⟨[]⟩ = ⟨.ok, initState, []⟩ :=
  ⟨(record_inactive_noop extAllOk initState "id" ⟨[]⟩ ⟨[]⟩).1 rfl,
   (record_inactive_noop extAllOk initState "id" ⟨[]⟩ ⟨[]⟩).2 rfl⟩

/-- Setup externals in which every call succeeds. -/
def setupExtAllOk : SetupExt :=
  ⟨.ok (), fun p => .ok p, fun _ => .ok ()⟩

/-- Setup externals in which path resolution fails. -/
def setupExtAbsFails : SetupExt :=
  ⟨.ok (), fun _ => .error "abs failed", fun _ => .ok ()⟩

/-- C7: when a channel's environment variable is unset, its setup returns
success, opens no file, leaves the state unchanged, and the channel
stays inactive. -/
theorem setup_unset_var_inactive (ext : SetupExt) (env : Env) (st : LogState) :
    (env.requestLogVar = none →
      setupRequestLog ext env st = ⟨.ok (), st, []⟩ ∧
      IsRequestLoggingActive (setupRequestLog ext env initState).state
        = false) ∧
    (env.responseLogVar = none →
      setupResponseLog ext env st = ⟨.ok (), st, []⟩ ∧
      IsResponseLoggingActive (setupResponseLog ext env initState).state
        = false) := by
  constructor
  · intro h
    constructor
    · simp only [setupRequestLog, h]
    · simp [setupRequestLog, h, initState, IsRequestLoggingActive]
  · intro h
    constructor
    · simp only [setupResponseLog, h]
    · simp [setupResponseLog, h, initState, IsResponseLoggingActive]

/-- C7 witness: with both variables unset, setup succeeds, opens nothing
and both channels stay inactive. -/
theorem setup_unset_var_inactive_witness :
    (setupRequestLog setupExtAllOk ⟨none, none⟩ initState
        = ⟨.ok (), initState, []⟩ ∧
      IsRequestLoggingActive
        (setupRequestLog setupExtAllOk ⟨none, none⟩ initState).state = false) ∧
    (setupResponseLog setupExtAllOk ⟨none, none⟩ initState
        = ⟨.ok (), initState, []⟩ ∧
      IsResponseLoggingActive
        (setupResponseLog setupExtAllOk ⟨none, none⟩ initState).state = false) :=
  ⟨(setup_unset_var_inactive setupExtAllOk ⟨none, none⟩ initState).1 rfl,
   (setup_unset_var_inactive setupExtAllOk ⟨none, none⟩ initState).2 rfl⟩

/-- C8: with the main log file opening fine, a failure of either
channel's initialization propagates out of `SetupLogging` instead of
being swallowed. -/
theorem setup_error_propagates (ext : SetupExt) (env : Env) (st : LogState)
    (hm : ext.mainLogOpen = .ok ()) :
    (∀ e, (setupRequestLog ext env st).result = .error e →
      (SetupLogging ext env st).result = .error e) ∧
    (∀ e, (setupRequestLog ext env st).result = .ok () →
      (setupResponseLog ext env (setupRequestLog ext env st).state).result
          = .error e →
      (SetupLogging ext env st).result = .error e) := by
  constructor
  · intro e h
    simp only [SetupLogging, hm, h]
  · intro e h1 h2
    simp only [SetupLogging, hm, h1, h2]

/-- C8 witness: a failing path resolution for the request channel (and,
with the request variable unset, for the response channel) surfaces from
`SetupLogging`. -/
theorem setup_error_propagates_witness :
    (SetupLogging setupExtAbsFails ⟨some "req.log", none⟩ initState).result
        = .error "abs failed" ∧
    (SetupLogging setupExtAbsFails ⟨none, some "resp.log"⟩ initState).result
        = .error "abs failed" :=
  ⟨(setup_error_propagates setupExtAbsFails ⟨some "req.log", none⟩ initState
      rfl).1 "abs failed" rfl,
   (setup_error_propagates setupExtAbsFails ⟨none, some "resp.log"⟩ initState
      rfl).2 "abs failed" rfl rfl⟩

/-- C9: on an active channel (and a header that does not panic), an
error return is the error of the first failing step, all earlier steps
having succeeded, and the remaining steps are skipped: for the request, a
serialization failure leaves nothing written and no flush attempted and
the state unchanged, and a write failure means no flush; for the
response, each failing step (serialization, Request-ID write, dump write,
flush) pins the exact event trace up to and including the failed attempt,
so no later write or flush is attempted.  The operation returns success
iff serialization, every attempted write, and the final flush all
succeeded. -/
theorem record_error_short_circuit (ext : Externals) (reqC respC id : String)
    (req : Request) (resp : Response) (breq bresp : Bool)
    (hbreq : dumpBodyFor req.header = some breq)
    (hbresp : dumpBodyFor resp.header = some bresp) :
    (∀ e, (LogRequest ext ⟨some reqC, some respC⟩ id req).result = .err e →
      (ext.dump breq = .error e ∧
        writesOf (LogRequest ext ⟨some reqC, some respC⟩ id req) = [] ∧
        Event.synced ∉ (LogRequest ext ⟨some reqC, some respC⟩ id req).events ∧
        (LogRequest ext ⟨some reqC, some respC⟩ id req).state
          = ⟨some reqC, some respC⟩) ∨
      (ext.write 0 = .error e ∧
        Event.synced ∉ (LogRequest ext ⟨some reqC, some respC⟩ id req).events ∧
        (LogRequest ext ⟨some reqC, some respC⟩ id req).state
          = ⟨some reqC, some respC⟩) ∨
      ext.sync = .error e) ∧
    ((LogRequest ext ⟨some reqC, some respC⟩ id req).result = .ok ↔
      (∃ d, ext.dump breq = .ok d) ∧ ext.write 0 = .ok () ∧
        ext.sync = .ok ()) ∧
    (∀ e, (LogResponse ext ⟨some reqC, some respC⟩ id resp).result = .err e →
      (ext.dump bresp = .error e ∧
        (LogResponse ext ⟨some reqC, some respC⟩ id resp).events
          = [.dumped bresp] ∧
        (LogResponse ext ⟨some reqC, some respC⟩ id resp).state
          = ⟨some reqC, some respC⟩) ∨
      (∃ d, ext.dump bresp = .ok d ∧ id ≠ "" ∧ ext.write 0 = .error e ∧
        (LogResponse ext ⟨some reqC, some respC⟩ id resp).events
          = [.dumped bresp, .wrote ("Request-ID: " ++ id ++ "\n")]) ∨
      (∃ d, ext.dump bresp = .ok d ∧ id ≠ "" ∧ ext.write 0 = .ok () ∧
        ext.write 1 = .error e ∧
        (LogResponse ext ⟨some reqC, some respC⟩ id resp).events
          = [.dumped bresp, .wrote ("Request-ID: " ++ id ++ "\n"),
             .wrote (d ++ "\n" ++ separator ++ "\n")]) ∨
      (∃ d, ext.dump bresp = .ok d ∧ id = "" ∧ ext.write 0 = .error e ∧
        (LogResponse ext ⟨some reqC, some respC⟩ id resp).events
          = [.dumped bresp, .wrote (d ++ "\n" ++ separator ++ "\n")]) ∨
      (∃ d, ext.dump bresp = .ok d ∧ ext.write 0 = .ok () ∧
        (id = "" ∨ ext.write 1 = .ok ()) ∧ ext.sync = .error e)) ∧
    ((LogResponse ext ⟨some reqC, some respC⟩ id resp).result = .ok ↔
      (∃ d, ext.dump bresp = .ok d) ∧ ext.write 0 = .ok () ∧
        (id = "" ∨ ext.write 1 = .ok ()) ∧ ext.sync = .ok ()) := by
  refine ⟨?_, ?_, ?_, ?_⟩
  · intro e h
    rcases hdp : ext.dump breq with e1 | d1
    · simp [LogRequest, hbreq, hdp] at h
      subst h
      left
      simp [LogRequest, hbreq, hdp, writesOf]
    · rcases hw0 : ext.write 0 with e1 | ⟨⟩
      · simp [LogRequest, hbreq, hdp, hw0] at h
        subst h
        right; left
        simp [LogRequest, hbreq, hdp, hw0]
      · rcases hs : ext.sync with e1 | ⟨⟩
        · simp [LogRequest, hbreq, hdp, hw0, hs] at h
          subst h
          right; right
          rfl
        · simp [LogRequest, hbreq, hdp, hw0, hs] at h
  · rcases hdp : ext.dump breq with e1 | d1
    · simp [LogRequest, hbreq, hdp]
    · rcases hw0 : ext.write 0 with e1 | ⟨⟩
      · simp [LogRequest, hbreq, hdp, hw0]
      · rcases hs : ext.sync with e1 | ⟨⟩ <;>
          simp [LogRequest, hbreq, hdp, hw0, hs]
  · intro e h
    rcases hdp : ext.dump bresp with e1 | d1
    · simp [LogResponse, hbresp, hdp] at h
      subst h
      left
      refine ⟨rfl, ?_, ?_⟩ <;> simp [LogResponse, hbresp, hdp]
    · by_cases hid : id = ""
      · subst hid
        rcases hw0 : ext.write 0 with e1 | ⟨⟩
        · simp [LogResponse, hbresp, hdp, hw0] at h
          subst h
          right; right; right; left
          exact ⟨d1, rfl, rfl, rfl, by simp [LogResponse, hbresp, hdp, hw0]⟩
        · rcases hs : ext.sync with e1 | ⟨⟩
          · simp [LogResponse, hbresp, hdp, hw0, hs] at h
            subst h
            right; right; right; right
            exact ⟨d1, rfl, rfl, Or.inl rfl, rfl⟩
          · simp [LogResponse, hbresp, hdp, hw0, hs] at h
      · rcases hw0 : ext.write 0 with e1 | ⟨⟩
        · simp [LogResponse, hbresp, hdp, hid, hw0] at h
          subst h
          right; left
          exact ⟨d1, rfl, hid, rfl, by simp [LogResponse, hbresp, hdp, hid, hw0]⟩
        · rcases hw1 : ext.write 1 with e1 | ⟨⟩
          · simp [LogResponse, hbresp, hdp, hid, hw0, hw1] at h
            subst h
            right; right; left
            exact ⟨d1, rfl, hid, rfl, rfl,
              by simp [LogResponse, hbresp, hdp, hid, hw0, hw1]⟩
          · rcases hs : ext.sync with e1 | ⟨⟩
            · simp [LogResponse, hbresp, hdp, hid, hw0, hw1, hs] at h
              subst h
              right; right; right; right
              exact ⟨d1, rfl, rfl, Or.inr rfl, rfl⟩
            · simp [LogResponse, hbresp, hdp, hid, hw0, hw1, hs] at h
  · rcases hdp : ext.dump bresp with e1 | d1
    · simp [LogResponse, hbresp, hdp]
    · by_cases hid : id = ""
      · subst hid
        rcases hw0 : ext.write 0 with e1 | ⟨⟩
        · simp [LogResponse, hbresp, hdp, hw0]
        · rcases hs : ext.sync with e1 | ⟨⟩ <;>
            simp [LogResponse, hbresp, hdp, hw0, hs]
      · rcases hw0 : ext.write 0 with e1 | ⟨⟩
        · simp [LogResponse, hbresp, hdp, hid, hw0]
        · rcases hw1 : ext.write 1 with e1 | ⟨⟩
          · simp [LogResponse, hbresp, hdp, hid, hw0, hw1]
          · rcases hs : ext.sync with e1 | ⟨⟩ <;>
              simp [LogResponse, hbresp, hdp, hid, hw0, hw1, hs]

/-- C9 witness: the success characterizations at a concrete all-ok run. -/
theorem record_error_short_circuit_witness :
    ((LogRequest extAllOk ⟨some "", some ""⟩ "id" ⟨[]⟩).result = .ok ↔
      (∃ d, extAllOk.dump false = .ok d) ∧ extAllOk.write 0 = .ok () ∧
        extAllOk.sync = .ok ()) ∧
    ((LogResponse extAllOk ⟨some "", some ""⟩ "id" ⟨[]⟩).result = .ok ↔
      (∃ d, extAllOk.dump false = .ok d) ∧ extAllOk.write 0 = .ok () ∧
        ("id" = "" ∨ extAllOk.write 1 = .ok ()) ∧ extAllOk.sync = .ok ()) :=
  ⟨(record_error_short_circuit extAllOk "" "" "id" ⟨[]⟩ ⟨[]⟩ false false
      rfl rfl).2.1,
   (record_error_short_circuit extAllOk "" "" "id" ⟨[]⟩ ⟨[]⟩ false false
      rfl rfl).2.2.2⟩

/-- C10: no record operation ever changes the presence of either channel
handle: the activation queries agree before and after every call,
whatever the externals do. -/
theorem record_preserves_activation (ext : Externals) (st : LogState)
    (id : String) (req : Request) (resp : Response) :
    IsRequestLoggingActive (LogRequest ext st id req).state
        = IsRequestLoggingActive st ∧
    IsResponseLoggingActive (LogRequest ext st id req).state
        = IsResponseLoggingActive st ∧
    IsRequestLoggingActive (LogResponse ext st id resp).state
        = IsRequestLoggingActive st ∧
    IsResponseLoggingActive (LogResponse ext st id resp).state
        = IsResponseLoggingActive st := by
  obtain ⟨rq, rs⟩ := st
  refine ⟨?_, ?_, ?_, ?_⟩ <;>
    cases rq <;> cases rs <;>
      simp only [LogRequest, LogResponse, IsRequestLoggingActive,
        IsResponseLoggingActive] <;>
      (repeat' split) <;> rfl

end MonacoLogging
